import Mathlib

/-!
Verification of the Stripe subscription/webhook reconciliation subsystem of
the TRNIQ fitness-platform backend (src/stripe-payments.js), against its
natural-language specification.

The embedding models:
- the two database tables the webhook handler writes (the users table's
  billing fields and the append-only payments ledger, per the SQL schema in
  src/unnamed/part_000);
- the webhook route of exports.handler in src/stripe-payments.js,
  lines 106-212: signature verification, the switch on event type, and the
  200/400/500 responses;
- the get-or-create Stripe customer step of the create-checkout route,
  lines 48-74.

Each awaited supabase call is modelled with an explicit outcome so that
store failures are expressible: the supabase client returns an error value
that this code ignores (no destructuring of the result, modelled as
CallOutcome.dbError: the call has no effect and execution continues), and an
awaited call can also reject, in which case the exception propagates to the
outer catch block at lines 281-288 (CallOutcome.throwEx). The happy path
(every call succeeds) is the oracle that answers CallOutcome.ok everywhere.
-/

/-- A row of the users table, restricted to the identity and billing fields
read or written by stripe-payments.js. Timestamps are epoch milliseconds
(the JS code stores new Date(seconds * 1000)). -/
structure User where
  id : String
  email : String
  stripe_customer_id : Option String
  stripe_subscription_id : Option String
  subscription_status : Option String
  subscription_plan : Option String
  subscription_ends_at : Option Int
  trial_ends_at : Option Int
  deriving Repr, DecidableEq

/-- A row of the payments table, restricted to the columns the webhook
handler inserts. amount is DECIMAL(10,2), the JS value amount_cents / 100.
The schema declares no uniqueness on stripe_invoice_id (only
stripe_payment_intent_id, which the handler never sets, is UNIQUE). -/
structure Payment where
  client_id : Option String
  stripe_invoice_id : Option String
  stripe_charge_id : Option String
  amount : Rat
  status : String
  invoice_url : Option String
  failure_reason : Option String
  paid_at : Option Int
  deriving Repr, DecidableEq

/-- The mutable store: the users table and the append-only payments ledger. -/
structure DB where
  users : List User
  payments : List Payment
  deriving Repr, DecidableEq

/-- The fields of a checkout.session.completed payload that the handler
reads (session.subscription, session.customer). price records which price
the session purchased; the handler never reads it. -/
structure CheckoutSession where
  subscription : String
  customer : String
  price : String
  deriving Repr, DecidableEq

/-- The fields of an invoice payload that the handler reads.
statusTransitions_paid_at and linePeriod_end are epoch seconds
(invoice.status_transitions.paid_at, invoice.lines.data[0].period.end). -/
structure InvoiceObj where
  id : String
  charge : Option String
  amount_paid : Int
  amount_due : Int
  hosted_invoice_url : Option String
  statusTransitions_paid_at : Int
  linePeriod_end : Int
  customer : String
  metadata_user_id : Option String
  last_payment_error_message : Option String
  deriving Repr, DecidableEq

/-- The fields of a customer.subscription.deleted payload that the handler
reads (subscription.customer, subscription.ended_at in epoch seconds). -/
structure SubscriptionObj where
  customer : String
  ended_at : Int
  deriving Repr, DecidableEq

/-- A verified Stripe event, discriminated as by the switch on
stripeEvent.type; other covers every type without a case (the switch's
implicit default: no effect). -/
inductive StripeEvent where
  | checkoutSessionCompleted (s : CheckoutSession)
  | invoicePaymentSucceeded (inv : InvoiceObj)
  | invoicePaymentFailed (inv : InvoiceObj)
  | customerSubscriptionDeleted (sub : SubscriptionObj)
  | other
  deriving Repr, DecidableEq

/-- Outcome of one awaited supabase call: it succeeds, or it returns an
error object that the handler ignores (the result is never destructured in
the webhook branch), or it rejects and the exception propagates to the
outer catch. -/
inductive CallOutcome where
  | ok
  | dbError
  | throwEx (msg : String)
  deriving Repr, DecidableEq

/-- Run one awaited supabase call whose successful effect on the store is
eff. Returns the store afterwards and the exception message if the call
threw. -/
def runCall (outcome : CallOutcome) (eff : DB → DB) (db : DB) :
    DB × Option String :=
  match outcome with
  | .ok => (eff db, none)
  | .dbError => (db, none)
  | .throwEx m => (db, some m)

/-- The users update of the checkout.session.completed case (lines 132-139):
set subscription id, status active, and the literal plan premium on every
row whose stripe_customer_id equals session.customer. -/
def updCheckout (s : CheckoutSession) (u : User) : User :=
  if u.stripe_customer_id = some s.customer then
    { u with stripe_subscription_id := some s.subscription,
             subscription_status := some "active",
             subscription_plan := some "premium" }
  else u

/-- The payments row inserted by the invoice.payment_succeeded case
(lines 147-157). -/
def succPayment (inv : InvoiceObj) : Payment :=
  { client_id := inv.metadata_user_id,
    stripe_invoice_id := some inv.id,
    stripe_charge_id := inv.charge,
    amount := (inv.amount_paid : Rat) / 100,
    status := "succeeded",
    invoice_url := inv.hosted_invoice_url,
    failure_reason := none,
    paid_at := some (inv.statusTransitions_paid_at * 1000) }

/-- The users update of the invoice.payment_succeeded case (lines 160-166):
unconditionally set status active and overwrite subscription_ends_at with
the invoice line period end, on every row matching invoice.customer. -/
def updSucceeded (inv : InvoiceObj) (u : User) : User :=
  if u.stripe_customer_id = some inv.customer then
    { u with subscription_status := some "active",
             subscription_ends_at := some (inv.linePeriod_end * 1000) }
  else u

/-- The payments row inserted by the invoice.payment_failed case
(lines 174-182). -/
def failedPayment (inv : InvoiceObj) : Payment :=
  { client_id := inv.metadata_user_id,
    stripe_invoice_id := some inv.id,
    stripe_charge_id := none,
    amount := (inv.amount_due : Rat) / 100,
    status := "failed",
    invoice_url := none,
    failure_reason := inv.last_payment_error_message,
    paid_at := none }

/-- The users update of the invoice.payment_failed case (lines 185-188):
set status past_due on every row matching invoice.customer; no other field
is touched. -/
def updFailed (inv : InvoiceObj) (u : User) : User :=
  if u.stripe_customer_id = some inv.customer then
    { u with subscription_status := some "past_due" }
  else u

/-- The users update of the customer.subscription.deleted case
(lines 196-202): status cancelled, subscription_ends_at set to the
processor-reported end, on every row matching subscription.customer. -/
def updCancelled (sub : SubscriptionObj) (u : User) : User :=
  if u.stripe_customer_id = some sub.customer then
    { u with subscription_status := some "cancelled",
             subscription_ends_at := some (sub.ended_at * 1000) }
  else u

/-- The switch on stripeEvent.type (lines 127-205), with an outcome oracle
assigning a CallOutcome to each successive supabase call of the chosen
case (call 0 first, then call 1). Returns the store after the effects that
were applied, plus the exception message if a call threw (execution stops
there; effects already applied are not rolled back — there is no
transaction). -/
def applyEventFx (oracle : Nat → CallOutcome) (db : DB) (ev : StripeEvent) :
    DB × Option String :=
  match ev with
  | .checkoutSessionCompleted s =>
      runCall (oracle 0)
        (fun d => { d with users := d.users.map (updCheckout s) }) db
  | .invoicePaymentSucceeded inv =>
      match runCall (oracle 0)
          (fun d => { d with payments := d.payments ++ [succPayment inv] }) db with
      | (db1, some m) => (db1, some m)
      | (db1, none) =>
          runCall (oracle 1)
            (fun d => { d with users := d.users.map (updSucceeded inv) }) db1
  | .invoicePaymentFailed inv =>
      match runCall (oracle 0)
          (fun d => { d with payments := d.payments ++ [failedPayment inv] }) db with
      | (db1, some m) => (db1, some m)
      | (db1, none) =>
          runCall (oracle 1)
            (fun d => { d with users := d.users.map (updFailed inv) }) db1
  | .customerSubscriptionDeleted sub =>
      runCall (oracle 0)
        (fun d => { d with users := d.users.map (updCancelled sub) }) db
  | .other => (db, none)

/-- The happy-path oracle: every supabase call succeeds. -/
def allOk : Nat → CallOutcome := fun _ => CallOutcome.ok

/-- The reconciler on the happy path: the switch with every call
succeeding. -/
def applyEvent (db : DB) (ev : StripeEvent) : DB :=
  (applyEventFx allOk db ev).1

/-- Structured view of the JSON bodies the handler returns on the webhook
route: the acknowledgement JSON.stringify with received true (line 210), or
an error JSON with a message (lines 122, 286). -/
inductive RespBody where
  | receivedTrue
  | errorMsg (msg : String)
  deriving Repr, DecidableEq

/-- An HTTP response of the handler: status code and body. -/
structure HttpResponse where
  statusCode : Nat
  body : RespBody
  deriving Repr, DecidableEq

/-- Modelled from the spec: the payments processor's webhook signature
scheme (stripe.webhooks.constructEvent, a collaborator per section 6 of the
spec, not code of this repository). Per section 4.4 the verifier recomputes
the expected signature over the exact raw request bytes using the shared
secret; this model uses a deterministic keyed digest of secret and body. -/
def sigOf (secret rawBody : String) : String :=
  toString ((secret ++ "." ++ rawBody).toList.foldl
    (fun h c => (h * 131 + c.toNat) % 1000000007) 7)

/-- Modelled from the spec: stripe.webhooks.constructEvent (section 4.4).
Fails closed when the signature header is missing, malformed, or does not
equal the expected signature of the raw body; on success decodes the body
into a typed event (decoding is a collaborator concern, passed in). -/
def constructEvent (decode : String → StripeEvent) (rawBody : String)
    (sig : Option String) (secret : String) : Option StripeEvent :=
  match sig with
  | none => none
  | some s => if s = sigOf secret rawBody then some (decode rawBody) else none

/-- The webhook route of exports.handler (lines 106-212) together with the
outer catch block (lines 281-288): verify the signature (400 with the fixed
message on failure, nothing processed), dispatch the verified event through
the switch, acknowledge with 200 received true, and map an exception thrown
by an awaited call to a 500 whose body carries error.message. Returns the
response and the store afterwards. -/
def webhookHandler (decode : String → StripeEvent) (oracle : Nat → CallOutcome)
    (secret : String) (db : DB) (rawBody : String) (sig : Option String) :
    HttpResponse × DB :=
  match constructEvent decode rawBody sig secret with
  | none => (⟨400, .errorMsg "Invalid signature"⟩, db)
  | some ev =>
      match applyEventFx oracle db ev with
      | (db1, some m) => (⟨500, .errorMsg m⟩, db1)
      | (db1, none) => (⟨200, .receivedTrue⟩, db1)

/-- State for the create-checkout route: the store plus the external
processor's side — how many customers.create calls were made (each returns
a fresh id cus_<n>). -/
structure CheckoutSt where
  db : DB
  created : Nat
  deriving Repr, DecidableEq

/-- The users update persisting a freshly created Stripe customer id
(lines 70-73). -/
def persistCustomerId (users : List User) (userId cid : String) : List User :=
  users.map (fun u => if u.id = userId then { u with stripe_customer_id := some cid } else u)

/-- The get-or-create Stripe customer step of the create-checkout route
(lines 48-74): look the user up by id; if a stripe_customer_id is already
persisted return it with no external call; otherwise call
stripe.customers.create, persist the returned id, and return it. none when
the account id resolves to no row (the JS code would throw on the null
row). -/
def getOrCreateCustomer (st : CheckoutSt) (userId : String) :
    Option (String × CheckoutSt) :=
  match st.db.users.find? (fun u => u.id = userId) with
  | none => none
  | some u =>
      match u.stripe_customer_id with
      | some cid => some (cid, st)
      | none =>
          let cid := "cus_" ++ toString st.created
          some (cid,
            { db := { st.db with users := persistCustomerId st.db.users userId cid },
              created := st.created + 1 })

/-! Concrete fixtures for evaluating the handler on explicit inputs. -/

/-- An active account u1 bound to billing customer cus_1, with a current
period end of epoch second 1700000000 (stored as milliseconds). -/
def userU1 : User :=
  { id := "u1", email := "u1@example.com", stripe_customer_id := some "cus_1",
    stripe_subscription_id := some "sub_1", subscription_status := some "active",
    subscription_plan := some "premium",
    subscription_ends_at := some 1700000000000, trial_ends_at := none }

/-- A store holding only account u1 and an empty payments ledger. -/
def db0 : DB := { users := [userU1], payments := [] }

/-- A paid invoice for customer cus_1, external id in_1, period end at epoch
second 1702592000 (later than u1's current period end). -/
def invPaid : InvoiceObj :=
  { id := "in_1", charge := some "ch_1", amount_paid := 7900, amount_due := 7900,
    hosted_invoice_url := some "https://pay.stripe.com/i/in_1",
    statusTransitions_paid_at := 1700000100, linePeriod_end := 1702592000,
    customer := "cus_1", metadata_user_id := some "u1",
    last_payment_error_message := none }

/-- A stale paid invoice for cus_1: its period end, epoch second
1690000000, precedes u1's current period end. -/
def invStale : InvoiceObj :=
  { invPaid with id := "in_0", statusTransitions_paid_at := 1690000100,
                 linePeriod_end := 1690000000 }

/-- A subscription-deleted payload for cus_1. -/
def subDel : SubscriptionObj := { customer := "cus_1", ended_at := 1700000000 }

/-- A failed invoice for cus_1 with a card_declined failure. -/
def invFail : InvoiceObj :=
  { invPaid with id := "in_2", charge := none, hosted_invoice_url := none,
                 last_payment_error_message := some "card_declined" }

/-- C1. The claim asserts replaying an identical verified
InvoicePaymentSucceeded event leaves exactly one PaymentRecord for its
external invoice id and subscription_ends_at unchanged. The code violates
the first half: the payments insert (lines 147-157) is a plain insert, not
keyed by stripe_invoice_id (the schema in src/unnamed/part_000 puts no
UNIQUE constraint on that column), so the second application inserts a
second row with the same external invoice id. subscription_ends_at is
indeed unchanged by the second application. Evaluated at the concrete
replayed event. -/
theorem replay_double_inserts_payment :
    ((applyEvent (applyEvent db0 (.invoicePaymentSucceeded invPaid))
          (.invoicePaymentSucceeded invPaid)).payments.filter
        (fun p => p.stripe_invoice_id = some "in_1")).length = 2
    ∧ (applyEvent (applyEvent db0 (.invoicePaymentSucceeded invPaid))
          (.invoicePaymentSucceeded invPaid)).users.map
        (fun u => u.subscription_ends_at)
      = (applyEvent db0 (.invoicePaymentSucceeded invPaid)).users.map
          (fun u => u.subscription_ends_at) := by
  decide

/-- C2. The claim asserts a SubscriptionCancelled followed by a stale,
earlier-timestamped InvoicePaymentSucceeded leaves the account cancelled.
The code violates it: the invoice.payment_succeeded case (lines 160-166)
unconditionally writes subscription_status active with no comparison of
timestamps, so the late stale event un-cancels the account. Evaluated at
the concrete pair of events. -/
theorem stale_success_uncancels :
    (applyEvent (applyEvent db0 (.customerSubscriptionDeleted subDel))
        (.invoicePaymentSucceeded invStale)).users.map
      (fun u => u.subscription_status)
    = [some "active"] := by
  decide

/-- C3. The claim asserts applying InvoicePaymentSucceeded never moves
subscription_ends_at backward. The code violates it: lines 160-166
blindly overwrite subscription_ends_at with the event's period end, so an
event carrying an earlier period end moves it backward. Evaluated at the
concrete stale invoice: the stored end moves from epoch ms 1700000000000
back to 1690000000000. -/
theorem ends_at_moved_backward :
    userU1.subscription_ends_at = some 1700000000000
    ∧ (applyEvent db0 (.invoicePaymentSucceeded invStale)).users.map
        (fun u => u.subscription_ends_at)
      = [some 1690000000000]
    ∧ (1690000000000 : Int) < 1700000000000 := by
  decide

/-- C4. For every webhook request whose signature header is missing or does
not match the expected signature of the raw body under the shared secret,
the handler responds 400 with the fixed Invalid signature body, dispatches
nothing (the switch is never reached), and the store — users rows and the
payments ledger alike — is returned unchanged. -/
theorem invalid_signature_rejected (decode : String → StripeEvent)
    (oracle : Nat → CallOutcome) (secret : String) (db : DB)
    (rawBody : String) (sig : Option String)
    (h : ∀ s, sig = some s → s ≠ sigOf secret rawBody) :
    webhookHandler decode oracle secret db rawBody sig
      = (⟨400, .errorMsg "Invalid signature"⟩, db) := by
  unfold webhookHandler constructEvent
  cases sig with
  | none => rfl
  | some s => simp [h s rfl]

/-- Witness for C4: a concrete malformed header is rejected with 400 and
the store untouched. -/
theorem invalid_signature_rejected_witness :
    webhookHandler (fun _ => StripeEvent.other) allOk "whsec_test" db0
        "payload" (some "bad")
      = (⟨400, .errorMsg "Invalid signature"⟩, db0) :=
  invalid_signature_rejected _ _ _ _ _ _ (fun s hs => by
    injection hs with h
    subst h
    decide)

/-- Oracle for a run where the first supabase call of the chosen case
returns a store error (which the code ignores) and every later call
succeeds. -/
def insErrOracle : Nat → CallOutcome := fun n => if n = 0 then .dbError else .ok

/-- A decoder producing the concrete failed-invoice event for webhook
runs. -/
def decFail : String → StripeEvent := fun _ => .invoicePaymentFailed invFail

/-- C5. The claim asserts each event handler applies all of its writes or
none. The code violates it: the payments insert and the users update are
two separate awaited calls with no transaction, and the insert's returned
error object is ignored, so when the insert fails and the update succeeds
the account is marked past_due with no PaymentRecord on the ledger — and
the handler still acknowledges 200, so the processor will not redeliver.
Evaluated at the concrete failed invoice with the insert erroring. -/
theorem insert_failure_partial_application :
    ((applyEventFx insErrOracle db0 (.invoicePaymentFailed invFail)).1.payments
        = [])
    ∧ ((applyEventFx insErrOracle db0 (.invoicePaymentFailed invFail)).1.users.map
          (fun u => u.subscription_status)
        = [some "past_due"])
    ∧ webhookHandler decFail insErrOracle "whsec_1" db0 "evt"
          (some (sigOf "whsec_1" "evt"))
        = (⟨200, .receivedTrue⟩,
           (applyEventFx insErrOracle db0 (.invoicePaymentFailed invFail)).1) := by
  decide

/-- Account uA, the one the event metadata below names. -/
def userA : User :=
  { id := "uA", email := "a@example.com", stripe_customer_id := some "cus_A",
    stripe_subscription_id := some "sub_A", subscription_status := some "active",
    subscription_plan := some "premium",
    subscription_ends_at := some 1700000000000, trial_ends_at := none }

/-- Account uB, the one bound to billing customer cus_X. -/
def userB : User :=
  { id := "uB", email := "b@example.com", stripe_customer_id := some "cus_X",
    stripe_subscription_id := some "sub_B", subscription_status := some "past_due",
    subscription_plan := some "premium",
    subscription_ends_at := some 1600000000000, trial_ends_at := none }

/-- A store holding accounts uA and uB. -/
def dbAB : DB := { users := [userA, userB], payments := [] }

/-- A paid invoice whose metadata names account uA but whose customer is
cus_X, the billing customer of account uB. -/
def invAB : InvoiceObj :=
  { invPaid with id := "in_3", customer := "cus_X", metadata_user_id := some "uA" }

/-- C6 counterexample. The claim says the reconciler prefers the account id
carried in the event metadata. At an invoice whose metadata names uA but
whose customer id is uB's, the code leaves uA untouched and writes uB: the
users update (lines 160-166) matches only on stripe_customer_id, so
resolution is not metadata-first. -/
theorem resolution_not_metadata_first :
    invAB.metadata_user_id = some "uA"
    ∧ (applyEvent dbAB (.invoicePaymentSucceeded invAB)).users.map
        (fun u => (u.id, u.subscription_status, u.subscription_ends_at))
      = [("uA", userA.subscription_status, userA.subscription_ends_at),
         ("uB", some "active", some (invAB.linePeriod_end * 1000))] := by
  decide

/-- The billing-customer id each switch case matches its users update on:
session.customer (line 139), invoice.customer (lines 166 and 188),
subscription.customer (line 202); the default case matches nothing. -/
def eventCustomer : StripeEvent → Option String
  | .checkoutSessionCompleted s => some s.customer
  | .invoicePaymentSucceeded inv => some inv.customer
  | .invoicePaymentFailed inv => some inv.customer
  | .customerSubscriptionDeleted sub => some sub.customer
  | .other => none

/-- The per-row users update each switch case performs; the default case
performs none. -/
def eventUserUpd : StripeEvent → User → User
  | .checkoutSessionCompleted s => updCheckout s
  | .invoicePaymentSucceeded inv => updSucceeded inv
  | .invoicePaymentFailed inv => updFailed inv
  | .customerSubscriptionDeleted sub => updCancelled sub
  | .other => id

/-- The payments rows each switch case inserts: one for each invoice case
(lines 147-157 and 174-182), none otherwise. -/
def eventPayments : StripeEvent → List Payment
  | .invoicePaymentSucceeded inv => [succPayment inv]
  | .invoicePaymentFailed inv => [failedPayment inv]
  | _ => []

/-- The account id carried in the event's metadata that the handler reads:
invoice.metadata.user_id in the two invoice cases (lines 150 and 177); the
other cases read no metadata at all. -/
def eventMetadata : StripeEvent → Option String
  | .invoicePaymentSucceeded inv => inv.metadata_user_id
  | .invoicePaymentFailed inv => inv.metadata_user_id
  | _ => none

/-- Rewrite the account id carried in an event's metadata, leaving the rest
of the payload alone (an identity on the cases whose payload carries no
metadata the handler reads). -/
def setMetadata (uid : Option String) : StripeEvent → StripeEvent
  | .invoicePaymentSucceeded inv =>
      .invoicePaymentSucceeded { inv with metadata_user_id := uid }
  | .invoicePaymentFailed inv =>
      .invoicePaymentFailed { inv with metadata_user_id := uid }
  | e => e

/-- On the happy-path oracle no call throws, and the store ends as
applyEvent leaves it. -/
theorem applyEventFx_allOk (db : DB) (ev : StripeEvent) :
    applyEventFx allOk db ev = (applyEvent db ev, none) := by
  cases ev <;> rfl

/-- C6 (amended). For every verified event of any type, the reconciler
resolves the target account solely by the billing-customer id on the
event's subject object: the store becomes exactly the per-case row update
mapped over the users table plus the per-case payments insert; a row not
carrying the event's customer id is never changed; rewriting the account id
in the event's metadata changes no users row (it is never used for
resolution), landing only as the client id of the inserted PaymentRecord;
and when no account carries the event's customer id the users table is
unchanged while the handler still acknowledges with 200 received true. -/
theorem resolution_by_customer_id (decode : String → StripeEvent)
    (secret : String) (db : DB) (rawBody : String) (sig : Option String)
    (ev : StripeEvent)
    (hev : constructEvent decode rawBody sig secret = some ev) :
    (applyEvent db ev
        = { users := db.users.map (eventUserUpd ev),
            payments := db.payments ++ eventPayments ev })
    ∧ (∀ u : User,
        (∀ c, eventCustomer ev = some c → ¬ u.stripe_customer_id = some c) →
        eventUserUpd ev u = u)
    ∧ (∀ uid, (applyEvent db (setMetadata uid ev)).users
        = (applyEvent db ev).users)
    ∧ (∀ p ∈ eventPayments ev, p.client_id = eventMetadata ev)
    ∧ ((∀ u ∈ db.users, ∀ c,
          eventCustomer ev = some c → ¬ u.stripe_customer_id = some c) →
        (applyEvent db ev).users = db.users)
    ∧ (webhookHandler decode allOk secret db rawBody sig).1
        = ⟨200, .receivedTrue⟩
    ∧ (webhookHandler decode allOk secret db rawBody sig).2
        = applyEvent db ev := by
  have hfac : applyEvent db ev
      = { users := db.users.map (eventUserUpd ev),
          payments := db.payments ++ eventPayments ev } := by
    cases ev <;>
      simp [applyEvent, applyEventFx, allOk, runCall, eventUserUpd,
        eventPayments]
  have hnomatch : ∀ u : User,
      (∀ c, eventCustomer ev = some c → ¬ u.stripe_customer_id = some c) →
      eventUserUpd ev u = u := by
    intro u h
    cases ev with
    | checkoutSessionCompleted s =>
        show updCheckout s u = u
        unfold updCheckout
        rw [if_neg (h s.customer rfl)]
    | invoicePaymentSucceeded inv =>
        show updSucceeded inv u = u
        unfold updSucceeded
        rw [if_neg (h inv.customer rfl)]
    | invoicePaymentFailed inv =>
        show updFailed inv u = u
        unfold updFailed
        rw [if_neg (h inv.customer rfl)]
    | customerSubscriptionDeleted sub =>
        show updCancelled sub u = u
        unfold updCancelled
        rw [if_neg (h sub.customer rfl)]
    | other => rfl
  refine ⟨hfac, hnomatch, ?_, ?_, ?_, ?_, ?_⟩
  · intro uid
    cases ev <;> rfl
  · intro p hp
    cases ev with
    | invoicePaymentSucceeded inv =>
        have hp1 : p = succPayment inv := by simpa [eventPayments] using hp
        rw [hp1]
        rfl
    | invoicePaymentFailed inv =>
        have hp1 : p = failedPayment inv := by simpa [eventPayments] using hp
        rw [hp1]
        rfl
    | checkoutSessionCompleted s => simp [eventPayments] at hp
    | customerSubscriptionDeleted sub => simp [eventPayments] at hp
    | other => simp [eventPayments] at hp
  · intro hnone
    rw [hfac]
    show db.users.map (eventUserUpd ev) = db.users
    have h : ∀ u ∈ db.users, eventUserUpd ev u = id u := by
      intro u hu
      rw [hnomatch u (hnone u hu)]
      rfl
    rw [List.map_congr_left h, List.map_id]
  · unfold webhookHandler
    simp only [hev, applyEventFx_allOk]
  · unfold webhookHandler
    simp only [hev, applyEventFx_allOk]

/-- A paid invoice for billing customer cus_Z, which no account in db0
carries. -/
def invZ : InvoiceObj := { invPaid with id := "in_4", customer := "cus_Z" }

/-- A decoder producing the cus_Z paid-invoice event. -/
def decZ : String → StripeEvent := fun _ => .invoicePaymentSucceeded invZ

/-- Witness for C6 (amended): a concrete verified event whose customer id
matches no account leaves the users rows unchanged, still appends its
PaymentRecord keyed by the metadata account id, and is acknowledged
with 200. -/
theorem resolution_by_customer_id_witness :
    (constructEvent decZ "evt" (some (sigOf "whsec_1" "evt")) "whsec_1"
        = some (.invoicePaymentSucceeded invZ))
    ∧ (∀ u ∈ db0.users, ∀ c,
        eventCustomer (.invoicePaymentSucceeded invZ) = some c →
        ¬ u.stripe_customer_id = some c)
    ∧ (webhookHandler decZ allOk "whsec_1" db0 "evt"
          (some (sigOf "whsec_1" "evt"))).2.users = db0.users
    ∧ (webhookHandler decZ allOk "whsec_1" db0 "evt"
          (some (sigOf "whsec_1" "evt"))).2.payments
        = db0.payments ++ [succPayment invZ]
    ∧ (∀ p ∈ eventPayments (.invoicePaymentSucceeded invZ),
        p.client_id = invZ.metadata_user_id)
    ∧ (webhookHandler decZ allOk "whsec_1" db0 "evt"
          (some (sigOf "whsec_1" "evt"))).1 = ⟨200, .receivedTrue⟩ :=
  have h := resolution_by_customer_id decZ "whsec_1" db0 "evt"
    (some (sigOf "whsec_1" "evt")) (.invoicePaymentSucceeded invZ) (by decide)
  ⟨by decide, by decide,
   by rw [h.2.2.2.2.2.2, h.2.2.2.2.1 (by decide)],
   by rw [h.2.2.2.2.2.2, h.1]; rfl,
   h.2.2.2.1,
   h.2.2.2.2.2.1⟩

/-- C10. For every verified CheckoutCompleted event and every account
carrying the session's customer id, the reconciler sets that account's
subscription_plan to the literal string premium (and status active, and the
session's subscription id) regardless of which price the session purchased:
the handler never reads the session's price, so changing it changes
nothing. -/
theorem checkout_sets_plan_premium (s : CheckoutSession) (p : String)
    (db : DB) (u : User) (hu : u ∈ db.users)
    (hc : u.stripe_customer_id = some s.customer) :
    (∃ v ∈ (applyEvent db (.checkoutSessionCompleted s)).users,
        v.id = u.id ∧ v.subscription_plan = some "premium"
        ∧ v.subscription_status = some "active"
        ∧ v.stripe_subscription_id = some s.subscription)
    ∧ applyEvent db (.checkoutSessionCompleted { s with price := p })
        = applyEvent db (.checkoutSessionCompleted s) := by
  constructor
  · refine ⟨updCheckout s u, ?_, ?_⟩
    · show updCheckout s u ∈ db.users.map (updCheckout s)
      exact List.mem_map_of_mem _ hu
    · unfold updCheckout
      rw [if_pos hc]
      exact ⟨rfl, rfl, rfl, rfl⟩
  · rfl

/-- A checkout session for cus_1 that purchased the elite price. -/
def sessElite : CheckoutSession :=
  { subscription := "sub_9", customer := "cus_1", price := "price_elite" }

/-- Witness for C10: the concrete elite-price session still marks account
u1 as plan premium. -/
theorem checkout_sets_plan_premium_witness :
    userU1 ∈ db0.users
    ∧ userU1.stripe_customer_id = some sessElite.customer
    ∧ ∃ v ∈ (applyEvent db0 (.checkoutSessionCompleted sessElite)).users,
        v.id = userU1.id ∧ v.subscription_plan = some "premium"
        ∧ v.subscription_status = some "active"
        ∧ v.stripe_subscription_id = some sessElite.subscription :=
  ⟨by decide, by decide,
   (checkout_sets_plan_premium sessElite "price_basic" db0 userU1
      (by decide) (by decide)).1⟩

/-- Looking a user up by id after persisting a customer id finds the same
row as before, with the customer id written when the id matches. -/
theorem find?_persist (users : List User) (userId cid : String) :
    (persistCustomerId users userId cid).find? (fun v => v.id = userId)
      = (users.find? (fun v => v.id = userId)).map
          (fun u => if u.id = userId then
              { u with stripe_customer_id := some cid } else u) := by
  induction users with
  | nil => rfl
  | cons a l ih =>
      unfold persistCustomerId at ih ⊢
      by_cases ha : a.id = userId
      · simp [List.find?_cons, ha]
      · simp [List.find?_cons, ha, ih]

/-- C7. For every account resolvable by id: when a billing-customer
reference is already persisted, the get-or-create step of create-checkout
returns it with the state unchanged — in particular no external
customers.create call; and running the step twice in sequence performs at
most one external creation in total, with the second run returning the
first run's reference and leaving its state untouched, so at most one
persisted billing-customer reference ever results. -/
theorem checkout_customer_idempotent (st : CheckoutSt) (userId : String)
    (u : User)
    (hfind : st.db.users.find? (fun v => v.id = userId) = some u) :
    (∀ cid, u.stripe_customer_id = some cid →
        getOrCreateCustomer st userId = some (cid, st))
    ∧ ∃ cid1 st1, getOrCreateCustomer st userId = some (cid1, st1)
        ∧ getOrCreateCustomer st1 userId = some (cid1, st1)
        ∧ st1.created ≤ st.created + 1 := by
  have hid : u.id = userId := by
    have h := List.find?_some hfind
    simpa using h
  constructor
  · intro cid hcid
    unfold getOrCreateCustomer
    rw [hfind]
    simp [hcid]
  · cases hcid : u.stripe_customer_id with
    | some c =>
        refine ⟨c, st, ?_, ?_, Nat.le_succ _⟩
        · unfold getOrCreateCustomer
          rw [hfind]
          simp [hcid]
        · unfold getOrCreateCustomer
          rw [hfind]
          simp [hcid]
    | none =>
        refine ⟨"cus_" ++ toString st.created,
          { db := { users := persistCustomerId st.db.users userId
                      ("cus_" ++ toString st.created),
                    payments := st.db.payments },
            created := st.created + 1 }, ?_, ?_, Nat.le_refl _⟩
        · unfold getOrCreateCustomer
          rw [hfind]
          simp [hcid]
        · unfold getOrCreateCustomer
          simp only [find?_persist, hfind, Option.map_some]
          simp [hid]

/-- A trialing account with no billing-customer reference yet. -/
def userFresh : User :=
  { id := "u2", email := "u2@example.com", stripe_customer_id := none,
    stripe_subscription_id := none, subscription_status := some "trialing",
    subscription_plan := some "trial", subscription_ends_at := none,
    trial_ends_at := some 1701209600000 }

/-- Checkout state holding only the fresh account, before any external
customer was created. -/
def stFresh : CheckoutSt :=
  { db := { users := [userFresh], payments := [] }, created := 0 }

/-- Witness for C7: running get-or-create twice on the fresh account
creates one external customer and the second run changes nothing. -/
theorem checkout_customer_idempotent_witness :
    (stFresh.db.users.find? (fun v => v.id = "u2") = some userFresh)
    ∧ ∃ cid1 st1, getOrCreateCustomer stFresh "u2" = some (cid1, st1)
        ∧ getOrCreateCustomer st1 "u2" = some (cid1, st1)
        ∧ st1.created ≤ stFresh.created + 1 :=
  ⟨by decide,
   (checkout_customer_idempotent stFresh "u2" userFresh (by decide)).2⟩

/-- C8. For every account carrying the failed invoice's customer id whose
status is active or past_due, applying InvoicePaymentFailed appends a
PaymentRecord with status failed, the event's failure reason, and amount
equal to the minor-unit amount_due divided by 100, and marks the account
past_due while leaving its subscription id untouched. -/
theorem payment_failed_applied (inv : InvoiceObj) (db : DB) (u : User)
    (hu : u ∈ db.users) (hc : u.stripe_customer_id = some inv.customer)
    (hs : u.subscription_status = some "active"
        ∨ u.subscription_status = some "past_due") :
    ((applyEvent db (.invoicePaymentFailed inv)).payments
        = db.payments ++ [failedPayment inv])
    ∧ (failedPayment inv).status = "failed"
    ∧ (failedPayment inv).failure_reason = inv.last_payment_error_message
    ∧ (failedPayment inv).amount = (inv.amount_due : Rat) / 100
    ∧ ∃ v ∈ (applyEvent db (.invoicePaymentFailed inv)).users,
        v.id = u.id ∧ v.subscription_status = some "past_due"
        ∧ v.stripe_subscription_id = u.stripe_subscription_id := by
  refine ⟨rfl, rfl, rfl, rfl, updFailed inv u, ?_, ?_⟩
  · show updFailed inv u ∈ db.users.map (updFailed inv)
    exact List.mem_map_of_mem _ hu
  · unfold updFailed
    rw [if_pos hc]
    exact ⟨rfl, rfl, rfl⟩

/-- Witness for C8: the concrete card_declined invoice with amount_due 7900
yields a failed PaymentRecord of amount 79 and marks u1 past_due with its
subscription id intact. -/
theorem payment_failed_applied_witness :
    userU1 ∈ db0.users
    ∧ userU1.stripe_customer_id = some invFail.customer
    ∧ userU1.subscription_status = some "active"
    ∧ invFail.amount_due = 7900
    ∧ (failedPayment invFail).amount = 79
    ∧ (failedPayment invFail).failure_reason = some "card_declined"
    ∧ ((applyEvent db0 (.invoicePaymentFailed invFail)).payments
        = db0.payments ++ [failedPayment invFail])
    ∧ ∃ v ∈ (applyEvent db0 (.invoicePaymentFailed invFail)).users,
        v.id = userU1.id ∧ v.subscription_status = some "past_due"
        ∧ v.stripe_subscription_id = userU1.stripe_subscription_id :=
  have h := payment_failed_applied invFail db0 userU1 (by decide) (by decide)
    (Or.inl (by decide))
  ⟨by decide, by decide, by decide, by decide,
   by norm_num [failedPayment, invFail, invPaid], by decide,
   h.1, h.2.2.2.2⟩

/-- Oracle where every supabase call rejects with a connection failure, as
when the store is unreachable. -/
def throwOracle : Nat → CallOutcome :=
  fun _ => .throwEx "connect ECONNREFUSED 10.0.0.5:5432"

/-- A decoder producing the concrete paid-invoice event. -/
def decPaid : String → StripeEvent := fun _ => .invoicePaymentSucceeded invPaid

/-- C9 counterexample. The claim says internal error detail never appears
in a webhook response body. At a verified event whose store call rejects,
the outer catch (lines 281-288) returns 500 with the exception's message in
the body — a body that is neither the acknowledgement nor the fixed
Invalid signature indicator. -/
theorem webhook_leaks_internal_error :
    webhookHandler decPaid throwOracle "whsec_1" db0 "evt"
        (some (sigOf "whsec_1" "evt"))
      = (⟨500, .errorMsg "connect ECONNREFUSED 10.0.0.5:5432"⟩, db0)
    ∧ RespBody.errorMsg "connect ECONNREFUSED 10.0.0.5:5432"
        ≠ RespBody.receivedTrue
    ∧ "connect ECONNREFUSED 10.0.0.5:5432" ≠ "Invalid signature" := by
  decide

/-- C9 (amended). Every webhook response is the 200 acknowledgement
received true, the fixed 400 Invalid signature body, or — when a store call
of the dispatched handler throws — a 500 whose body carries that call's
exception message (the outer catch returns the raw error message, so
internal detail can appear on store failure). -/
theorem webhook_response_shape (decode : String → StripeEvent)
    (oracle : Nat → CallOutcome) (secret : String) (db : DB)
    (rawBody : String) (sig : Option String) :
    (webhookHandler decode oracle secret db rawBody sig).1
        = ⟨200, .receivedTrue⟩
    ∨ (webhookHandler decode oracle secret db rawBody sig).1
        = ⟨400, .errorMsg "Invalid signature"⟩
    ∨ ∃ ev m, constructEvent decode rawBody sig secret = some ev
        ∧ (applyEventFx oracle db ev).2 = some m
        ∧ (webhookHandler decode oracle secret db rawBody sig).1
            = ⟨500, .errorMsg m⟩ := by
  unfold webhookHandler
  cases hev : constructEvent decode rawBody sig secret with
  | none =>
      simp only [hev]
      exact Or.inr (Or.inl trivial)
  | some ev =>
      simp only [hev]
      cases hfx : applyEventFx oracle db ev with
      | mk db1 o =>
          cases o with
          | none =>
              simp only [hfx]
              exact Or.inl trivial
          | some m =>
              simp only [hfx]
              exact Or.inr (Or.inr ⟨ev, m, rfl, by rw [hfx], rfl⟩)
